import Mathlib

/-!
Verification of the single-file meme-generator application `src/a.py`.

The script wires three external libraries (a UI framework, a browser agent
framework, an LLM client) together.  The code owned by the repository is:

* `run_agent_with_debug` (a.py lines 20-83): picks a model name and a
  temperature from the dropdown value, builds an LLM configuration, formats
  a task string, creates a browser, runs the external agent inside a
  try/except/finally, and returns a pair (final result, error list);
* `main`'s button handler (a.py lines 109-149): checks the API key, calls
  `run_agent_with_debug`, and renders the returned pair, extracting an
  image URL from the result text with a fixed regular expression.

The external calls (the agent run, the browser) are modelled by an explicit
outcome parameter `AgentBehavior`; everything else below is a direct
translation of the Python.  Python truthiness of strings (the empty string
is falsy) is translated explicitly where the source relies on it.
-/

namespace MemeApp

/-- The model / temperature configuration chosen from the dropdown value
(a.py lines 25-33).  The temperature literals `0.7`, `0.3`, `0.1` are
embedded as the rationals `7/10`, `3/10`, `1/10`. -/
structure ModelConfig where
  model : String
  temp : ℚ
deriving DecidableEq

/-- a.py lines 25-33: the if/elif/else ladder on `model_choice`. -/
def selectModel (model_choice : String) : ModelConfig :=
  if model_choice = "Claude" then
    { model := "meta-llama/llama-3.3-70b-instruct:free", temp := 7/10 }
  else if model_choice = "Deepseek" then
    { model := "nex-agi/deepseek-v3.1-nex-n1:free", temp := 3/10 }
  else
    { model := "openai/gpt-oss-120b:free", temp := 1/10 }

/-- a.py lines 44-55: the task string.  Only the first line is a Python
f-string; the step-2 line is a plain string literal, so the characters
`\x7bquery\x7d` appear literally in it and the query is NOT substituted
there.  (`\x7b` and `\x7d` denote the brace characters.) -/
def task (query : String) : String :=
  "Generate a meme about: '" ++ query ++ "'.\n" ++
  "STRICT STEPS:\n" ++
  "1. GO TO 'https://imgflip.com/memetemplates'.\n" ++
  "2. TYPE a simple keyword related to '\x7bquery\x7d' into the search box.\n" ++
  "3. CLICK on the first matching template image.\n" ++
  "4. WAIT for the 'Caption this Meme' button or text boxes to load.\n" ++
  "5. CLICK inside the Top Text box and TYPE a setup.\n" ++
  "6. CLICK inside the Bottom Text box and TYPE a punchline.\n" ++
  "7. CLICK 'Generate Meme'.\n" ++
  "8. EXTRACT and RETURN the image URL starting with 'https://i.imgflip.com'.\n"

/-- a.py line 59: `BrowserConfig(headless=headless)`. -/
structure BrowserConfig where
  headless : Bool
deriving DecidableEq

/-- a.py lines 35-41: the `ChatOpenAI(...)` configuration. -/
structure LLMConfig where
  base_url : String
  model : String
  api_key : String
  temperature : ℚ
deriving DecidableEq

/-- Outcome of the external code awaited inside the try block of
`run_agent_with_debug` (a.py lines 75-79): `agent.run()` may raise,
`history.final_result()` may raise, or the run completes and
`final_result()` returns an optional string. -/
inductive AgentBehavior where
  | runRaises (msg : String)
  | finalResultRaises (msg : String)
  | returns (finalResult : Option String)
deriving DecidableEq

/-- Everything `run_agent_with_debug` builds and returns: the LLM
configuration, the task string handed to the agent, the browser
configuration, the returned pair `(final_result, errors)`, and how many
times `browser.close()` ran. -/
structure RunOutput where
  llm : LLMConfig
  taskGiven : String
  browserConfig : BrowserConfig
  finalResult : Option String
  errors : List String
  browserCloseCount : Nat
deriving DecidableEq

/-- a.py lines 20-83: `run_agent_with_debug`.  The external agent run is
the `agent_run` parameter; `str(e)` of a raised exception is its carried
message.  The `finally` block runs `browser.close()` once on every path. -/
def run_agent_with_debug (query model_choice api_key : String) (headless : Bool)
    (agent_run : AgentBehavior) : RunOutput :=
  let mc := selectModel model_choice
  let llm : LLMConfig :=
    { base_url := "https://openrouter.ai/api/v1", model := mc.model,
      api_key := api_key, temperature := mc.temp }
  let t := task query
  let browser : BrowserConfig := { headless := headless }
  let closes : Nat := 0
  -- try: history = await agent.run(); final_result = history.final_result()
  -- except Exception as e: errors.append(str(e))
  let (final_result, errors) : Option String × List String :=
    match agent_run with
    | AgentBehavior.returns r => (r, [])
    | AgentBehavior.runRaises e => (none, [e])
    | AgentBehavior.finalResultRaises e => (none, [e])
  -- finally: await browser.close()
  let closes := closes + 1
  { llm := llm, taskGiven := t, browserConfig := browser,
    finalResult := final_result, errors := errors, browserCloseCount := closes }

/-! ### The regular expression of a.py line 140

`re.search(r'(https://i\.imgflip\.com/\w+\.jpg)', result)`: the leftmost
occurrence of the literal text `https://i.imgflip.com/` followed by one or
more word characters followed by the literal text `.jpg`.  Because `.` is
not a word character, the greedy `\w+` can only succeed on the maximal run
of word characters after the literal, so the search below is exact. -/

/-- Python `\w`: a word character, alphanumeric or underscore.  (Python's
`re` also counts non-ASCII letters as word characters; imgflip image ids
are ASCII, and every statement below uses this one search definition on
both of its sides.) -/
def isWordChar (c : Char) : Bool := c.isAlphanum || c == '_'

/-- Does `p` occur at the very start of `cs`? -/
def listStartsWith : List Char → List Char → Bool
  | [], _ => true
  | _ :: _, [] => false
  | p :: ps, c :: cs => p == c && listStartsWith ps cs

def imgflipLit : List Char := "https://i.imgflip.com/".toList

def jpgLit : List Char := ".jpg".toList

/-- Try to match the pattern at the start of `cs`, returning the matched
text (group 1 is the whole match). -/
def matchImgflipAt (cs : List Char) : Option String :=
  if listStartsWith imgflipLit cs then
    let rest := cs.drop imgflipLit.length
    let run := rest.takeWhile isWordChar
    if run.isEmpty then none
    else if listStartsWith jpgLit (rest.drop run.length) then
      some (String.mk (imgflipLit ++ run ++ jpgLit))
    else none
  else none

/-- Scan left to right for the first position where the pattern matches,
as `re.search` does. -/
def searchImgflipAux : List Char → Option String
  | [] => none
  | c :: cs =>
    match matchImgflipAt (c :: cs) with
    | some m => some m
    | none => searchImgflipAux cs

/-- a.py line 140: the regex search over the result string; `some u` is a
match whose group 1 is `u`, `none` means no match. -/
def re_search_imgflip (s : String) : Option String := searchImgflipAux s.toList

/-! ### The button handler of `main` (a.py lines 109-149) -/

/-- The visible UI output statements issued by the button handler. -/
inductive UIAction where
  | errorMsg (msg : String)
  | stopRun
  | jsonErrors (errs : List String)
  | successMsg (msg : String)
  | markdown (txt : String)
  | image (url : String)
  | warning (msg : String)
deriving DecidableEq

/-- Python truthiness of the optional result string: `None` and the empty
string are falsy, every other string is truthy. -/
def pyTruthy : Option String → Bool
  | none => false
  | some s => !(s == "")

/-- a.py lines 131-146: rendering of the returned pair.  `if errors:` and
`if result:` are Python truthiness tests, translated explicitly. -/
def renderResult (result : Option String) (errors : List String) : List UIAction :=
  (if errors.isEmpty then []
   else [UIAction.errorMsg "💥 The Agent crashed!", UIAction.jsonErrors errors])
  ++ match result with
     | some r =>
       if r == "" then [UIAction.warning "Agent finished but returned no result."]
       else
         [UIAction.successMsg "Agent Finished!",
          UIAction.markdown ("### Result:\n" ++ r)]
         ++ match re_search_imgflip r with
            | some u => [UIAction.image u]
            | none => [UIAction.warning "No image link found in result."]
     | none => [UIAction.warning "Agent finished but returned no result."]

/-- What one click of the Run Agent button does: the UI statements it
issues and the call (if any) it makes to `run_agent_with_debug`. -/
structure HandlerResult where
  actions : List UIAction
  agentCall : Option RunOutput
deriving DecidableEq

/-- a.py lines 109-146: the button handler.  `if not api_key:` is true
exactly for the empty string; `st.stop()` aborts before the agent call. -/
def runButtonHandler (api_key query model_choice : String) (headless : Bool)
    (agent_run : AgentBehavior) : HandlerResult :=
  if api_key == "" then
    { actions := [UIAction.errorMsg "Need API Key", UIAction.stopRun],
      agentCall := none }
  else
    let out := run_agent_with_debug query model_choice api_key headless agent_run
    { actions := renderResult out.finalResult out.errors, agentCall := some out }

/-- a.py line 99: the options of the model dropdown. -/
def modelOptions : List String := ["Deepseek", "Claude", "OpenAI"]

/-- a.py line 102: `platform.system() == "Linux"`, the default of the
Headless Mode checkbox (a.py line 103). -/
def is_cloud (system : String) : Bool := system == "Linux"

/-- Generic substring test used to state facts about the task string. -/
def listContainsSub (needle : List Char) : List Char → Bool
  | [] => needle.isEmpty
  | c :: cs => listStartsWith needle (c :: cs) || listContainsSub needle cs

def strContains (hay needle : String) : Bool :=
  listContainsSub needle.toList hay.toList

/-! ### Claims -/

/-- C1: the (model identifier, temperature) configuration is selected by a
fixed total lookup: "Claude" yields (meta-llama/llama-3.3-70b-instruct:free,
0.7), "Deepseek" yields (nex-agi/deepseek-v3.1-nex-n1:free, 0.3), and every
other string yields (openai/gpt-oss-120b:free, 0.1); the selection is a
total function, so no input makes it fail. -/
theorem C1_model_lookup :
    selectModel "Claude" =
      { model := "meta-llama/llama-3.3-70b-instruct:free", temp := 7/10 } ∧
    selectModel "Deepseek" =
      { model := "nex-agi/deepseek-v3.1-nex-n1:free", temp := 3/10 } ∧
    ∀ s : String, s ≠ "Claude" → s ≠ "Deepseek" →
      selectModel s = { model := "openai/gpt-oss-120b:free", temp := 1/10 } := by
  refine ⟨rfl, ?_, ?_⟩
  · simp [selectModel]
  · intro s h1 h2
    simp [selectModel, h1, h2]

/-- Witness for C1 at the concrete unknown string "Mistral". -/
theorem C1_model_lookup_witness :
    selectModel "Mistral" = { model := "openai/gpt-oss-120b:free", temp := 1/10 } :=
  C1_model_lookup.2.2 "Mistral" (by decide) (by decide)

/-- C2: `run_agent_with_debug` always returns a pair (optional result,
error list) and never propagates an exception of the awaited agent run: if
the run (or the `final_result()` call) raises, the result is `none` and the
error list is exactly the string form of that exception; if the run
succeeds, the result is the history's final result and the error list is
empty. -/
theorem C2_result_pair (query model_choice api_key : String) (headless : Bool)
    (agent_run : AgentBehavior) :
    (∀ e, (agent_run = AgentBehavior.runRaises e ∨
           agent_run = AgentBehavior.finalResultRaises e) →
      (run_agent_with_debug query model_choice api_key headless agent_run).finalResult
        = none ∧
      (run_agent_with_debug query model_choice api_key headless agent_run).errors
        = [e]) ∧
    (∀ r, agent_run = AgentBehavior.returns r →
      (run_agent_with_debug query model_choice api_key headless agent_run).finalResult
        = r ∧
      (run_agent_with_debug query model_choice api_key headless agent_run).errors
        = []) := by
  constructor
  · rintro e (rfl | rfl) <;> exact ⟨rfl, rfl⟩
  · rintro r rfl
    exact ⟨rfl, rfl⟩

/-- Witness for C2 at a concrete raising run. -/
theorem C2_result_pair_witness :
    (run_agent_with_debug "q" "OpenAI" "k" true
        (AgentBehavior.runRaises "boom")).finalResult = none ∧
    (run_agent_with_debug "q" "OpenAI" "k" true
        (AgentBehavior.runRaises "boom")).errors = ["boom"] :=
  (C2_result_pair "q" "OpenAI" "k" true (AgentBehavior.runRaises "boom")).1
    "boom" (Or.inl rfl)

set_option maxRecDepth 20000 in
/-- C4 (code bug, evaluated at the failing input `query = "cats"`): the
opening line of the task substitutes the query, but the step-2 line of the
task string still contains the literal text `\x7bquery\x7d` and not the
query: line 48 of a.py is a plain string literal, not an f-string. -/
theorem C4_step2_query_not_substituted :
    strContains (task "cats") "related to '\x7bquery\x7d'" = true ∧
    strContains (task "cats") "related to 'cats'" = false ∧
    strContains (task "cats") "Generate a meme about: 'cats'" = true :=
  ⟨by decide, by decide, by decide⟩

/-- C5: the returned pair never has both a non-None result and a non-empty
error list: whenever the error list is non-empty, the result is `none`. -/
theorem C5_result_error_exclusive (query model_choice api_key : String)
    (headless : Bool) (agent_run : AgentBehavior)
    (h : (run_agent_with_debug query model_choice api_key headless agent_run).errors
      ≠ []) :
    (run_agent_with_debug query model_choice api_key headless agent_run).finalResult
      = none := by
  cases agent_run with
  | returns r => exact absurd rfl h
  | runRaises e => rfl
  | finalResultRaises e => rfl

/-- Witness for C5 at a concrete raising run. -/
theorem C5_result_error_exclusive_witness :
    (run_agent_with_debug "q" "Claude" "k" false
        (AgentBehavior.runRaises "x")).finalResult = none :=
  C5_result_error_exclusive "q" "Claude" "k" false
    (AgentBehavior.runRaises "x") (by decide)

/-- C9: every invocation of `run_agent_with_debug` closes the browser it
created exactly once before returning, both when the awaited run succeeds
and when it raises: the close runs in the `finally` block. -/
theorem C9_browser_closed_once (query model_choice api_key : String)
    (headless : Bool) (agent_run : AgentBehavior) :
    (run_agent_with_debug query model_choice api_key headless
        agent_run).browserCloseCount = 1 := by
  cases agent_run <;> rfl

/-- C3 counterexample: the claim quantifies over every non-None result
string, but for the non-None result `some ""` (which has no match of the
pattern) the handler does not show the "No image link found in result."
warning: Python's `if result:` is false for the empty string, so the
handler takes the "returned no result" branch instead. -/
theorem C3_counterexample :
    (some "" : Option String) ≠ none ∧
    re_search_imgflip "" = none ∧
    UIAction.warning "No image link found in result." ∉
      renderResult (some "") [] :=
  ⟨by decide, rfl, by decide⟩

/-- C3 (amended to truthy, i.e. non-empty, result strings): for every
non-empty result string, the UI renders an image exactly when the result
contains a match of the pattern; when a match exists the first match is
the image URL rendered and the only image rendered, and when no match
exists the handler shows the "No image link found in result." warning and
renders no image. -/
theorem C3_image_rendering (r : String) (errs : List String) (hr : r ≠ "") :
    (∀ u, re_search_imgflip r = some u →
      UIAction.image u ∈ renderResult (some r) errs ∧
      UIAction.warning "No image link found in result." ∉
        renderResult (some r) errs ∧
      ∀ v, UIAction.image v ∈ renderResult (some r) errs → v = u) ∧
    (re_search_imgflip r = none →
      UIAction.warning "No image link found in result." ∈
        renderResult (some r) errs ∧
      ∀ v, UIAction.image v ∉ renderResult (some r) errs) := by
  constructor
  · intro u hu
    cases errs <;> simp [renderResult, hr, hu]
  · intro hn
    cases errs <;> simp [renderResult, hr, hn]

set_option maxRecDepth 20000 in
/-- Witness for C3 at a concrete result containing a match. -/
theorem C3_image_rendering_witness :
    UIAction.image "https://i.imgflip.com/1bij.jpg" ∈
      renderResult (some "Done: https://i.imgflip.com/1bij.jpg") [] :=
  ((C3_image_rendering "Done: https://i.imgflip.com/1bij.jpg" [] (by decide)).1
      "https://i.imgflip.com/1bij.jpg" (by decide)).1

/-- C6 counterexample: the claim ties the success message to a non-None
result and the "returned no result" warning to a None result, but for the
non-None result `some ""` the handler shows the warning and no success
message: Python's `if result:` is false for the empty string. -/
theorem C6_counterexample :
    (some "" : Option String) ≠ none ∧
    UIAction.successMsg "Agent Finished!" ∉ renderResult (some "") [] ∧
    UIAction.warning "Agent finished but returned no result." ∈
      renderResult (some "") [] :=
  ⟨by decide, by decide, by decide⟩

/-- C6 (amended from non-None to truthy, i.e. non-None and non-empty):
rendering is an exhaustive case split on the returned pair: the crash
error is shown exactly when the error list is non-empty; the success
message is shown exactly when the result is truthy; the "Agent finished
but returned no result." warning is shown exactly when the result is not
truthy (None or the empty string). -/
theorem C6_render_exhaustive (result : Option String) (errs : List String) :
    (UIAction.errorMsg "💥 The Agent crashed!" ∈ renderResult result errs ↔
      errs ≠ []) ∧
    (UIAction.successMsg "Agent Finished!" ∈ renderResult result errs ↔
      pyTruthy result = true) ∧
    (UIAction.warning "Agent finished but returned no result." ∈
        renderResult result errs ↔ pyTruthy result = false) := by
  cases result with
  | none => cases errs <;> simp [renderResult, pyTruthy]
  | some r =>
    by_cases hr : r = ""
    · subst hr
      cases errs <;> simp [renderResult, pyTruthy]
    · cases errs <;> cases hm : re_search_imgflip r <;>
        simp [renderResult, pyTruthy, hr, hm]

/-- C7: the model dropdown offers exactly the three literals "Deepseek",
"Claude" and "OpenAI", so every key `main` hands to `run_agent_with_debug`
is one of these; and `run_agent_with_debug` does no validation of the key:
any string other than "Claude" and "Deepseek" takes the default branch. -/
theorem C7_dropdown_closed (s : String) :
    modelOptions = ["Deepseek", "Claude", "OpenAI"] ∧
    (∀ m ∈ modelOptions, m = "Deepseek" ∨ m = "Claude" ∨ m = "OpenAI") ∧
    (s ≠ "Claude" → s ≠ "Deepseek" →
      selectModel s = { model := "openai/gpt-oss-120b:free", temp := 1/10 }) := by
  refine ⟨rfl, by decide, ?_⟩
  intro h1 h2
  simp [selectModel, h1, h2]

/-- Witness for C7 at the concrete unknown string "Gemini". -/
theorem C7_dropdown_closed_witness :
    selectModel "Gemini" = { model := "openai/gpt-oss-120b:free", temp := 1/10 } :=
  (C7_dropdown_closed "Gemini").2.2 (by decide) (by decide)

/-- C8: clicking Run Agent with an empty API key shows the "Need API Key"
error and stops before the agent is invoked; `run_agent_with_debug` is
only ever called with a non-empty API key (which it passes to the LLM
configuration). -/
theorem C8_api_key_gate (api_key query model_choice : String) (headless : Bool)
    (agent_run : AgentBehavior) :
    (api_key = "" →
      (runButtonHandler api_key query model_choice headless agent_run).actions =
        [UIAction.errorMsg "Need API Key", UIAction.stopRun] ∧
      (runButtonHandler api_key query model_choice headless agent_run).agentCall
        = none) ∧
    (∀ out,
      (runButtonHandler api_key query model_choice headless agent_run).agentCall
        = some out → api_key ≠ "" ∧ out.llm.api_key = api_key) := by
  by_cases h : api_key = ""
  · subst h
    refine ⟨fun _ => ⟨rfl, rfl⟩, ?_⟩
    intro out hout
    simp [runButtonHandler] at hout
  · refine ⟨fun h0 => absurd h0 h, ?_⟩
    intro out hout
    refine ⟨h, ?_⟩
    simp [runButtonHandler, h] at hout
    subst hout
    rfl

/-- Witness for C8 at the empty API key. -/
theorem C8_api_key_gate_witness :
    (runButtonHandler "" "q" "OpenAI" true (AgentBehavior.returns none)).actions =
      [UIAction.errorMsg "Need API Key", UIAction.stopRun] ∧
    (runButtonHandler "" "q" "OpenAI" true (AgentBehavior.returns none)).agentCall
      = none :=
  (C8_api_key_gate "" "q" "OpenAI" true (AgentBehavior.returns none)).1 rfl

/-- C10: the Headless Mode checkbox default is true exactly when the
platform system name is "Linux" and false on every other platform, and the
submitted checkbox value is passed through unchanged into the browser
configuration constructed by `run_agent_with_debug`. -/
theorem C10_headless_default_and_passthrough (sys : String) (hsys : sys ≠ "Linux")
    (query model_choice api_key : String) (headless : Bool)
    (agent_run : AgentBehavior) :
    is_cloud "Linux" = true ∧
    is_cloud sys = false ∧
    (run_agent_with_debug query model_choice api_key headless
        agent_run).browserConfig = { headless := headless } := by
  refine ⟨rfl, ?_, rfl⟩
  simp [is_cloud, hsys]

/-- Witness for C10 at the concrete platform "Darwin". -/
theorem C10_headless_witness :
    is_cloud "Linux" = true ∧ is_cloud "Darwin" = false ∧
    (run_agent_with_debug "q" "Deepseek" "k" false
        (AgentBehavior.returns (some "r"))).browserConfig =
      { headless := false } :=
  C10_headless_default_and_passthrough "Darwin" (by decide) "q" "Deepseek" "k"
    false (AgentBehavior.returns (some "r"))

end MemeApp
